import Mathlib

/-!
# VideoLayerAndroid: a shallow embedding of the video compositing layer

Embeds `Source/WebCore/platform/graphics/android/VideoLayerAndroid.cpp`.

* Scalars (`float`, `double`, `SkScalar`) are taken exactly, as rationals;
  `int` values are integers and `int / int` is the truncating quotient.
* The collaborators the file calls but does not define (Skia's `SkRect`,
  `TransformationMatrix`, `ShaderProgram`, `VideoLayerManager`,
  `SurfaceTexture`, the `LayerAndroid` base class) are modelled by what the
  file uses of them: rectangles by their four edges, matrices symbolically,
  the manager by the values its getters return, and every call that has an
  effect on a collaborator as one entry of a call trace.
* The layer's own state (`m_playerState`, `m_surfaceTexture`, the static
  `m_rotateDegree`) is passed explicitly.
-/

namespace WebCore

/-! ## Skia rectangles -/

/-- Width and height pair, as `getSize()` returns it. -/
structure SkSize where
  fWidth : ℚ
  fHeight : ℚ
  deriving DecidableEq, Repr

/-- Rectangle given by its four edges (`SkRect`). -/
structure SkRect where
  fLeft : ℚ
  fTop : ℚ
  fRight : ℚ
  fBottom : ℚ
  deriving DecidableEq, Repr

namespace SkRect

/-- Skia's `SkRect::MakeWH(w, h)`: the rectangle `(0, 0, w, h)`. -/
def MakeWH (w h : ℚ) : SkRect := ⟨0, 0, w, h⟩

/-- Skia's `SkRect::MakeSize(size)`: the rectangle `(0, 0, size.width, size.height)`. -/
def MakeSize (size : SkSize) : SkRect := ⟨0, 0, size.fWidth, size.fHeight⟩

/-- Skia's `SkRect::width()`. -/
def width (r : SkRect) : ℚ := r.fRight - r.fLeft

/-- Skia's `SkRect::height()`. -/
def height (r : SkRect) : ℚ := r.fBottom - r.fTop

/-- Skia's `SkRect::inset(dx, dy)`: moves every edge inwards by `dx` resp. `dy`. -/
def inset (r : SkRect) (dx dy : ℚ) : SkRect :=
  ⟨r.fLeft + dx, r.fTop + dy, r.fRight - dx, r.fBottom - dy⟩

/-- Skia's `SkRect::offset(dx, dy)`: translates the rectangle. -/
def offset (r : SkRect) (dx dy : ℚ) : SkRect :=
  ⟨r.fLeft + dx, r.fTop + dy, r.fRight + dx, r.fBottom + dy⟩

/-- Skia's `SkRect::contains(const SkRect&)`: `o` lies inside or equals `r`. -/
def contains (r o : SkRect) : Bool :=
  decide (r.fLeft ≤ o.fLeft) && decide (r.fTop ≤ o.fTop) &&
    decide (r.fRight ≥ o.fRight) && decide (r.fBottom ≥ o.fBottom)

/-- Skia's `SkRect::centerX()`. -/
def centerX (r : SkRect) : ℚ := (r.fLeft + r.fRight) / 2

/-- Skia's `SkRect::centerY()`. -/
def centerY (r : SkRect) : ℚ := (r.fTop + r.fBottom) / 2

end SkRect

/-! ## Collaborators -/

/-- Symbolic `TransformationMatrix`: a named matrix and the `translate` and
`rotate` calls applied to it, in order. -/
inductive TransformationMatrix where
  | named (k : Nat)
  | translate (m : TransformationMatrix) (tx ty : ℚ)
  | rotate (m : TransformationMatrix) (degrees : ℚ)
  deriving DecidableEq, Repr

/-- RGBA colour (`Color(r, g, b, a)`). -/
structure Color where
  r : Nat
  g : Nat
  b : Nat
  a : Nat
  deriving DecidableEq, Repr

/-- The `GLenum` texture target the file names. -/
inductive GLenum where
  | GL_TEXTURE_2D
  deriving DecidableEq, Repr

/-- Which button `drawIcon` is asked about. -/
inductive IconType where
  | PlayIcon
  | PauseIcon
  deriving DecidableEq, Repr

/-- The player state. The file names `INITIALIZED`, `PREPARING` and
`PLAYING`; every further enumerator of the header is `other n`. -/
inductive PlayerState where
  | INITIALIZED
  | PREPARING
  | PLAYING
  | other (n : Nat)
  deriving DecidableEq, Repr

/-- A `SurfaceTexture`: its GL name and the 4x4 matrix `getTransformMatrix`
hands out once `updateTexImage` has latched the current frame. -/
structure SurfaceTexture where
  name : Nat
  transformMatrix : List ℚ
  deriving DecidableEq, Repr

/-- What the file reads from the `VideoLayerManager`: the return values of its
getters, per layer id where the getter takes one. `getButtonSize()` returns an
`int` (the header declares `static int getButtonSize()`), so dividing it by an
integer literal is C++ integer division. `getMatrix` is `none` for a null
pointer. `drawIcon` is the scale the manager answers with. -/
structure VideoLayerManager where
  getButtonSize : Int
  getAspectRatio : Int → ℚ
  getTextureId : Int → Nat
  getMatrix : Int → Option (List ℚ)
  drawIcon : Int → IconType → ℚ
  getSpinnerOuterTextureId : Nat
  getSpinnerInnerTextureId : Nat
  getPosterTextureId : Nat
  getPlayTextureId : Nat
  getPauseTextureId : Nat

/-- What `TilesManager::instance()` leads to: the manager; and the header constant
`ROTATESTEP`. -/
structure TilesManager where
  videoLayerManager : VideoLayerManager
  ROTATESTEP : ℚ

/-- What the file uses of the `LayerAndroid` base class: `uniqueId()`,
`getSize()`, `m_drawTransform`, and the value `drawChildrenGL()` returns. -/
structure LayerAndroid where
  uniqueId : Int
  getSize : SkSize
  m_drawTransform : TransformationMatrix
  drawChildrenGL : Bool
  deriving DecidableEq, Repr

/-- One call with an effect on a collaborator. The arguments a call site
leaves to their defaults (`drawLayerQuad`'s texture target and colour) are
`none`. -/
inductive GLCall where
  | initGLResourcesIfNeeded
  | registerTexture (layerId : Int) (textureName : Int)
  | drawLayerQuad (drawMatrix : TransformationMatrix) (geometry : SkRect)
      (textureId : Nat) (opacity : ℚ) (forceBlending : Bool)
      (textureTarget : Option GLenum) (pureColor : Option Color)
  | drawVideoLayerQuad (drawMatrix : TransformationMatrix)
      (textureMatrix : List ℚ) (geometry : SkRect) (textureId : Nat)
  | updateTexImage (texture : SurfaceTexture)
  | getTransformMatrix (texture : SurfaceTexture)
  | updateMatrix (layerId : Int) (matrix : List ℚ)
  | drawIcon (layerId : Int) (type : IconType)
  | drawChildrenGL
  deriving DecidableEq, Repr

/-! ## The layer -/

/-- A `VideoLayerAndroid`: the base class part and the two members. -/
structure VideoLayerAndroid where
  base : LayerAndroid
  m_surfaceTexture : Option SurfaceTexture
  m_playerState : PlayerState
  deriving DecidableEq, Repr

namespace VideoLayerAndroid

/-- Source function `VideoLayerAndroid::init()`. -/
def init (layer : VideoLayerAndroid) : VideoLayerAndroid :=
  { layer with m_playerState := PlayerState.INITIALIZED }

/-- The default constructor: `base` is what `LayerAndroid((RenderLayer*)0)`
builds, `m_surfaceTexture` is default-initialised to null, `m_playerState` is
`indeterminate` until `init()` runs. -/
def construct (base : LayerAndroid) (indeterminate : PlayerState) :
    VideoLayerAndroid :=
  init ⟨base, none, indeterminate⟩

/-- The copy constructor: `copyBase` is the base class's copy constructor;
`m_surfaceTexture` is not in the initialiser list, so it is null. -/
def copyConstruct (copyBase : LayerAndroid → LayerAndroid)
    (layer : VideoLayerAndroid) (indeterminate : PlayerState) :
    VideoLayerAndroid :=
  init ⟨copyBase layer.base, none, indeterminate⟩

/-- Source function `VideoLayerAndroid::setSurfaceTexture`: the layer afterwards and the call
made on the manager. -/
def setSurfaceTexture (layer : VideoLayerAndroid)
    (texture : Option SurfaceTexture) (textureName : Int)
    (playerState : PlayerState) : VideoLayerAndroid × List GLCall :=
  ({ layer with m_surfaceTexture := texture, m_playerState := playerState },
   [GLCall.registerTexture layer.base.uniqueId textureName])

/-- Source function `VideoLayerAndroid::showPreparingAnimation`: the three quads drawn and the
new value of the static `m_rotateDegree`. -/
def showPreparingAnimation (tm : TilesManager) (layer : VideoLayerAndroid)
    (m_rotateDegree : ℚ) (rect innerRect : SkRect) : List GLCall × ℚ :=
  let manager := tm.videoLayerManager
  let background := GLCall.drawLayerQuad layer.base.m_drawTransform rect 0 1 true
    (some GLenum.GL_TEXTURE_2D) (some ⟨128, 128, 128, 255⟩)
  let addRotation0 := layer.base.m_drawTransform
  let addRotation1 := addRotation0.translate innerRect.fLeft innerRect.fTop
  let halfButtonSize : ℚ := ((manager.getButtonSize.tdiv 2 : Int) : ℚ)
  let addRotation2 := addRotation1.translate halfButtonSize halfButtonSize
  let addReverseRotation0 := addRotation2
  let addRotation3 := addRotation2.rotate m_rotateDegree
  let addRotation4 := addRotation3.translate (-halfButtonSize) (-halfButtonSize)
  let size := SkRect.MakeWH innerRect.width innerRect.height
  let outer := GLCall.drawLayerQuad addRotation4 size
    manager.getSpinnerOuterTextureId 1 true none none
  let addReverseRotation1 := addReverseRotation0.rotate (-m_rotateDegree)
  let addReverseRotation2 :=
    addReverseRotation1.translate (-halfButtonSize) (-halfButtonSize)
  let inner := GLCall.drawLayerQuad addReverseRotation2 size
    manager.getSpinnerInnerTextureId 1 true none none
  ([background, outer, inner], m_rotateDegree + tm.ROTATESTEP)

/-- The local `deltaY` of `calVideoRect`: the height left over when the video
takes the full width. -/
def deltaY (tm : TilesManager) (layer : VideoLayerAndroid) (rect : SkRect) : ℚ :=
  rect.height - rect.width / tm.videoLayerManager.getAspectRatio layer.base.uniqueId

/-- The local `deltaX` of `calVideoRect`: the width left over when the video
takes the full height. -/
def deltaX (tm : TilesManager) (layer : VideoLayerAndroid) (rect : SkRect) : ℚ :=
  rect.width - rect.height * tm.videoLayerManager.getAspectRatio layer.base.uniqueId

/-- Source function `VideoLayerAndroid::calVideoRect`. -/
def calVideoRect (tm : TilesManager) (layer : VideoLayerAndroid)
    (rect : SkRect) : SkRect :=
  let videoRect := rect
  if deltaY tm layer rect ≥ 0 then
    videoRect.inset 0 (deltaY tm layer rect / 2)
  else
    if deltaX tm layer rect ≥ 0 then
      videoRect.inset (deltaX tm layer rect / 2) 0
    else
      videoRect

/-- The inner rect `drawGL` computes for the progress / play / pause
animation (lines 152-159). -/
def innerRect (tm : TilesManager) (videoRect : SkRect) : SkRect :=
  let manager := tm.videoLayerManager
  let innerRect0 := SkRect.MakeWH (manager.getButtonSize : ℚ)
    (manager.getButtonSize : ℚ)
  let innerRect1 := if innerRect0.contains videoRect then videoRect else innerRect0
  let buttonSize : ℚ := (manager.getButtonSize : ℚ)
  innerRect1.offset (videoRect.fLeft + (videoRect.width - buttonSize) / 2)
    (videoRect.fTop + (videoRect.height - buttonSize) / 2)

/-- The rect of the icon quad: the inner rect inset on every side by
`getButtonSize() / 4 * scale` (lines 183-184 and 208-209), where
`getButtonSize() / 4` is the `int` quotient, truncated towards zero, and the
product with the `double` scale is taken exactly. -/
def iconRect (tm : TilesManager) (innerRect : SkRect) (scale : ℚ) : SkRect :=
  innerRect.inset (((tm.videoLayerManager.getButtonSize.tdiv 4 : Int) : ℚ) * scale)
    (((tm.videoLayerManager.getButtonSize.tdiv 4 : Int) : ℚ) * scale)

/-- The play / pause overlay that ends the live-frame branch (lines 180-188,
with `PlayIcon` and the play texture) and the screenshot / poster branch
(lines 205-213, with `PauseIcon` and the pause texture): the `drawIcon` query,
and the icon quad when the scale is nonzero. Returns the calls and the value
`needRedraw` has afterwards. -/
def drawIconOverlay (tm : TilesManager) (layer : VideoLayerAndroid)
    (innerRect : SkRect) (type : IconType) (iconTextureId : Nat) :
    List GLCall × Bool :=
  let manager := tm.videoLayerManager
  let scale := manager.drawIcon layer.base.uniqueId type
  if scale ≠ 0 then
    let innerRect' := iconRect tm innerRect scale
    ([GLCall.drawIcon layer.base.uniqueId type,
      GLCall.drawLayerQuad layer.base.m_drawTransform innerRect' iconTextureId
        scale true none none], true)
  else
    ([GLCall.drawIcon layer.base.uniqueId type], false)

/-- What one `drawGL` call yields: the value returned, the calls made in
order, and the layer and static rotation angle afterwards. -/
structure DrawResult where
  ret : Bool
  calls : List GLCall
  layer : VideoLayerAndroid
  m_rotateDegree : ℚ

/-- Source function `VideoLayerAndroid::drawGL`. -/
def drawGL (tm : TilesManager) (layer : VideoLayerAndroid)
    (m_rotateDegree : ℚ) : DrawResult :=
  let manager := tm.videoLayerManager
  let rect := SkRect.MakeSize layer.base.getSize
  let videoRect := calVideoRect tm layer rect
  let black : List GLCall :=
    if videoRect ≠ rect then
      [GLCall.drawLayerQuad layer.base.m_drawTransform rect 0 1 true
        (some GLenum.GL_TEXTURE_2D) (some ⟨0, 0, 0, 255⟩)]
    else []
  let innerRect := innerRect tm videoRect
  let prologue := GLCall.initGLResourcesIfNeeded :: black
  if layer.m_playerState = PlayerState.PREPARING then
    let anim := showPreparingAnimation tm layer m_rotateDegree videoRect innerRect
    let needRedraw := true
    { ret := layer.base.drawChildrenGL || needRedraw
      calls := prologue ++ anim.1 ++ [GLCall.drawChildrenGL]
      layer := layer
      m_rotateDegree := anim.2 }
  else if h : layer.m_playerState = PlayerState.PLAYING ∧
      layer.m_surfaceTexture.isSome = true then
    let texture := layer.m_surfaceTexture.get h.2
    let surfaceMatrix := texture.transformMatrix
    let textureId := manager.getTextureId layer.base.uniqueId
    let frame := [GLCall.updateTexImage texture,
      GLCall.getTransformMatrix texture,
      GLCall.drawVideoLayerQuad layer.base.m_drawTransform surfaceMatrix
        videoRect textureId,
      GLCall.updateMatrix layer.base.uniqueId surfaceMatrix]
    let icon := drawIconOverlay tm layer innerRect IconType.PlayIcon
      manager.getPlayTextureId
    { ret := layer.base.drawChildrenGL || icon.2
      calls := prologue ++ frame ++ icon.1 ++ [GLCall.drawChildrenGL]
      layer := layer
      m_rotateDegree := m_rotateDegree }
  else
    let textureId := manager.getTextureId layer.base.uniqueId
    let matrix := manager.getMatrix layer.base.uniqueId
    let content : List GLCall :=
      if h : textureId ≠ 0 ∧ matrix.isSome = true then
        [GLCall.drawVideoLayerQuad layer.base.m_drawTransform (matrix.get h.2)
          videoRect textureId]
      else
        [GLCall.drawLayerQuad layer.base.m_drawTransform rect 0 1 true
           (some GLenum.GL_TEXTURE_2D) (some ⟨128, 128, 128, 255⟩),
         GLCall.drawLayerQuad layer.base.m_drawTransform innerRect
           manager.getPosterTextureId 1 true none none]
    let icon := drawIconOverlay tm layer innerRect IconType.PauseIcon
      manager.getPauseTextureId
    { ret := layer.base.drawChildrenGL || icon.2
      calls := prologue ++ content ++ icon.1 ++ [GLCall.drawChildrenGL]
      layer := layer
      m_rotateDegree := m_rotateDegree }

/-- The member functions callable on a constructed layer, with their
arguments. -/
inductive Op where
  | setSurfaceTexture (texture : Option SurfaceTexture) (textureName : Int)
      (playerState : PlayerState)
  | showPreparingAnimation (rect innerRect : SkRect)
  | calVideoRect (rect : SkRect)
  | drawGL
  deriving DecidableEq, Repr

/-- The layer together with the static `m_rotateDegree` and the calls made on
the collaborators so far. -/
structure World where
  layer : VideoLayerAndroid
  m_rotateDegree : ℚ
  calls : List GLCall

/-- One member-function call on the layer. -/
def step (tm : TilesManager) (w : World) : Op → World
  | Op.setSurfaceTexture texture textureName playerState =>
    let r := setSurfaceTexture w.layer texture textureName playerState
    { layer := r.1, m_rotateDegree := w.m_rotateDegree, calls := w.calls ++ r.2 }
  | Op.showPreparingAnimation rect innerRect =>
    let r := showPreparingAnimation tm w.layer w.m_rotateDegree rect innerRect
    { layer := w.layer, m_rotateDegree := r.2, calls := w.calls ++ r.1 }
  | Op.calVideoRect _ => w
  | Op.drawGL =>
    let r := drawGL tm w.layer w.m_rotateDegree
    { layer := r.layer, m_rotateDegree := r.m_rotateDegree,
      calls := w.calls ++ r.calls }

/-- A sequence of member-function calls, first to last. -/
def run (tm : TilesManager) (w : World) (ops : List Op) : World :=
  ops.foldl (step tm) w

/-! ## What a call trace shows -/

/-- The element rect `drawGL` starts from. -/
def elementRect (layer : VideoLayerAndroid) : SkRect :=
  SkRect.MakeSize layer.base.getSize

/-- The video rect `drawGL` computes. -/
def videoRect (tm : TilesManager) (layer : VideoLayerAndroid) : SkRect :=
  calVideoRect tm layer (elementRect layer)

/-- The texture `drawGL` draws the icon of the given type with. -/
def iconTextureId (tm : TilesManager) : IconType → Nat
  | IconType.PlayIcon => tm.videoLayerManager.getPlayTextureId
  | IconType.PauseIcon => tm.videoLayerManager.getPauseTextureId

/-- The icon quad for the given type: the layer's draw transform, the inner
rect inset by a quarter of the button size times the scale `drawIcon`
answered, the icon's texture, and the scale as opacity. -/
def iconQuad (tm : TilesManager) (layer : VideoLayerAndroid) (type : IconType) :
    GLCall :=
  GLCall.drawLayerQuad layer.base.m_drawTransform
    (iconRect tm (innerRect tm (videoRect tm layer))
      (tm.videoLayerManager.drawIcon layer.base.uniqueId type))
    (iconTextureId tm type)
    (tm.videoLayerManager.drawIcon layer.base.uniqueId type) true none none

/-- The gray quad over the whole element rect. -/
def posterBackground (layer : VideoLayerAndroid) : GLCall :=
  GLCall.drawLayerQuad layer.base.m_drawTransform (elementRect layer) 0 1 true
    (some GLenum.GL_TEXTURE_2D) (some ⟨128, 128, 128, 255⟩)

/-- The poster texture drawn in the inner rect. -/
def posterQuad (tm : TilesManager) (layer : VideoLayerAndroid) : GLCall :=
  GLCall.drawLayerQuad layer.base.m_drawTransform
    (innerRect tm (videoRect tm layer))
    tm.videoLayerManager.getPosterTextureId 1 true none none

/-- The calls `drawGL` starts with in every state: the lazy resource
initialisation, and the black quad over the element rect when the video rect
does not cover it. -/
def prologue (tm : TilesManager) (layer : VideoLayerAndroid) : List GLCall :=
  GLCall.initGLResourcesIfNeeded ::
    (if videoRect tm layer ≠ elementRect layer then
      [GLCall.drawLayerQuad layer.base.m_drawTransform (elementRect layer) 0 1 true
        (some GLenum.GL_TEXTURE_2D) (some ⟨0, 0, 0, 255⟩)]
    else [])

/-- The trace shows the spinner: the three quads of
`showPreparingAnimation`, called with the video rect and the inner rect,
appear in a row. -/
def spinnerDrawn (tm : TilesManager) (layer : VideoLayerAndroid)
    (m_rotateDegree : ℚ) (calls : List GLCall) : Prop :=
  (showPreparingAnimation tm layer m_rotateDegree (videoRect tm layer)
    (innerRect tm (videoRect tm layer))).1 <:+: calls

/-- The trace shows the live frame: an `updateTexImage`, and later a
`drawVideoLayerQuad` over the video rect with the layer's draw transform and
the manager's texture id for this layer. -/
def liveFrameDrawn (tm : TilesManager) (layer : VideoLayerAndroid)
    (calls : List GLCall) : Prop :=
  ∃ texture textureMatrix,
    List.Sublist
      [GLCall.updateTexImage texture,
       GLCall.drawVideoLayerQuad layer.base.m_drawTransform textureMatrix
         (videoRect tm layer) (tm.videoLayerManager.getTextureId layer.base.uniqueId)]
      calls

/-- The trace shows the cached screenshot: a `drawVideoLayerQuad` over the
video rect with the manager's texture id and cached matrix for this layer. -/
def screenshotDrawn (tm : TilesManager) (layer : VideoLayerAndroid)
    (calls : List GLCall) : Prop :=
  ∃ matrix, tm.videoLayerManager.getMatrix layer.base.uniqueId = some matrix ∧
    GLCall.drawVideoLayerQuad layer.base.m_drawTransform matrix
      (videoRect tm layer) (tm.videoLayerManager.getTextureId layer.base.uniqueId)
      ∈ calls

/-- The trace shows the poster: the gray quad over the element rect directly
followed by the poster texture in the inner rect. -/
def posterDrawn (tm : TilesManager) (layer : VideoLayerAndroid)
    (calls : List GLCall) : Prop :=
  [posterBackground layer, posterQuad tm layer] <:+: calls

/-- The trace shows the screenshot / poster branch: the screenshot quad or the
two poster quads, directly followed by the branch's `drawIcon` query. -/
def screenshotOrPosterBranch (tm : TilesManager) (layer : VideoLayerAndroid)
    (calls : List GLCall) : Prop :=
  (∃ matrix, tm.videoLayerManager.getMatrix layer.base.uniqueId = some matrix ∧
    [GLCall.drawVideoLayerQuad layer.base.m_drawTransform matrix
        (videoRect tm layer) (tm.videoLayerManager.getTextureId layer.base.uniqueId),
      GLCall.drawIcon layer.base.uniqueId IconType.PauseIcon] <:+: calls) ∨
  [posterBackground layer, posterQuad tm layer,
    GLCall.drawIcon layer.base.uniqueId IconType.PauseIcon] <:+: calls

/-! ## Sample values -/

/-- A manager with a 64 pixel button, 4:3 video, no cached screenshot and no
icon animation running. -/
def sampleManager : VideoLayerManager :=
  { getButtonSize := 64
    getAspectRatio := fun _ => 4 / 3
    getTextureId := fun _ => 0
    getMatrix := fun _ => none
    drawIcon := fun _ _ => 0
    getSpinnerOuterTextureId := 1
    getSpinnerInnerTextureId := 2
    getPosterTextureId := 3
    getPlayTextureId := 4
    getPauseTextureId := 5 }

/-- The sample manager with `ROTATESTEP` 12. -/
def sampleTiles : TilesManager := ⟨sampleManager, 12⟩

/-- A 160 x 90 layer without children to redraw. -/
def sampleBase : LayerAndroid :=
  ⟨7, ⟨160, 90⟩, TransformationMatrix.named 0, false⟩

/-- A freshly constructed 160 x 90 layer. -/
def sampleLayer : VideoLayerAndroid :=
  construct sampleBase (PlayerState.other 0)

/-- The sample manager with square (1:1) video. -/
def squareManager : VideoLayerManager :=
  { sampleManager with getAspectRatio := fun _ => 1 }

/-- The square-video manager with `ROTATESTEP` 12. -/
def squareTiles : TilesManager := ⟨squareManager, 12⟩

/-- A freshly constructed 32 x 32 layer: smaller than the 64 pixel button. -/
def thumbnailLayer : VideoLayerAndroid :=
  construct ⟨7, ⟨32, 32⟩, TransformationMatrix.named 0, false⟩ (PlayerState.other 0)

/-- A surface texture with the identity transform. -/
def sampleTexture : SurfaceTexture :=
  ⟨9, [1, 0, 0, 0, 0, 1, 0, 0, 0, 0, 1, 0, 0, 0, 0, 1]⟩

/-- The sample layer once `setSurfaceTexture` has handed it a texture in state
`PLAYING`. -/
def playingLayer : VideoLayerAndroid :=
  (setSurfaceTexture sampleLayer (some sampleTexture) 9 PlayerState.PLAYING).1

/-- The sample manager half way through an icon animation: `drawIcon` answers
scale 1/2. -/
def fadingManager : VideoLayerManager :=
  { sampleManager with drawIcon := fun _ _ => 1 / 2 }

/-- The fading manager with `ROTATESTEP` 12. -/
def fadingTiles : TilesManager := ⟨fadingManager, 12⟩

/-- The fading manager with a 66 pixel button, a size that 4 does not
divide. -/
def oddManager : VideoLayerManager :=
  { fadingManager with getButtonSize := 66 }

/-- The 66 pixel manager with `ROTATESTEP` 12. -/
def oddTiles : TilesManager := ⟨oddManager, 12⟩

end VideoLayerAndroid

end WebCore

namespace WebCore

open VideoLayerAndroid

/-! ## calVideoRect -/

/-- The two ways `calVideoRect` can go for a positive aspect ratio: the
vertical inset by `deltaY / 2` when `deltaY ≥ 0`, and otherwise the horizontal
inset by `deltaX / 2`, where then `deltaX > 0`. -/
theorem calVideoRect_cases (tm : TilesManager) (layer : VideoLayerAndroid)
    (rect : SkRect)
    (ha : 0 < tm.videoLayerManager.getAspectRatio layer.base.uniqueId) :
    (0 ≤ deltaY tm layer rect ∧
        calVideoRect tm layer rect = rect.inset 0 (deltaY tm layer rect / 2)) ∨
      (deltaY tm layer rect < 0 ∧ 0 < deltaX tm layer rect ∧
        calVideoRect tm layer rect = rect.inset (deltaX tm layer rect / 2) 0) := by
  by_cases hy : 0 ≤ deltaY tm layer rect
  · left
    refine ⟨hy, ?_⟩
    simp only [calVideoRect, ge_iff_le]
    rw [if_pos hy]
  · right
    have hy' := not_le.mp hy
    have hx : 0 < deltaX tm layer rect := by
      have h1 : rect.height < rect.width /
          tm.videoLayerManager.getAspectRatio layer.base.uniqueId := by
        simp only [deltaY] at hy'
        linarith
      have h2 := (lt_div_iff₀ ha).mp h1
      simp only [deltaX]
      linarith
    refine ⟨hy', hx, ?_⟩
    simp only [calVideoRect, ge_iff_le]
    rw [if_neg hy, if_pos (le_of_lt hx)]

/-- C3: for an element rect of positive width and height and a positive
aspect ratio `a`, the video rect has `width / height = a`; it keeps the left
and right edges of the element when `height - width / a ≥ 0` (letterbox) and
the top and bottom edges otherwise (pillarbox). -/
theorem calVideoRect_aspect_ratio (tm : TilesManager) (layer : VideoLayerAndroid)
    (rect : SkRect) (hw : 0 < rect.width) (hh : 0 < rect.height)
    (ha : 0 < tm.videoLayerManager.getAspectRatio layer.base.uniqueId) :
    (calVideoRect tm layer rect).width / (calVideoRect tm layer rect).height
        = tm.videoLayerManager.getAspectRatio layer.base.uniqueId ∧
      (rect.height - rect.width /
          tm.videoLayerManager.getAspectRatio layer.base.uniqueId ≥ 0 →
        (calVideoRect tm layer rect).fLeft = rect.fLeft ∧
        (calVideoRect tm layer rect).fRight = rect.fRight ∧
        (calVideoRect tm layer rect).width = rect.width) ∧
      (rect.height - rect.width /
          tm.videoLayerManager.getAspectRatio layer.base.uniqueId < 0 →
        (calVideoRect tm layer rect).fTop = rect.fTop ∧
        (calVideoRect tm layer rect).fBottom = rect.fBottom ∧
        (calVideoRect tm layer rect).height = rect.height) := by
  have hx := calVideoRect_cases tm layer rect ha
  simp only [SkRect.width, SkRect.height, deltaX, deltaY] at hw hh hx ⊢
  have ha0 : tm.videoLayerManager.getAspectRatio layer.base.uniqueId ≠ 0 := ne_of_gt ha
  rcases hx with ⟨hy, hv⟩ | ⟨hy, -, hv⟩
  · rw [hv]
    simp only [SkRect.inset]
    refine ⟨?_, fun _ => ⟨by ring, by ring, by ring⟩, fun h => absurd h (not_lt.mpr hy)⟩
    have e : rect.fBottom - (rect.fBottom - rect.fTop - (rect.fRight - rect.fLeft) /
        tm.videoLayerManager.getAspectRatio layer.base.uniqueId) / 2 -
        (rect.fTop + (rect.fBottom - rect.fTop - (rect.fRight - rect.fLeft) /
        tm.videoLayerManager.getAspectRatio layer.base.uniqueId) / 2)
        = (rect.fRight - rect.fLeft) /
          tm.videoLayerManager.getAspectRatio layer.base.uniqueId := by ring
    rw [e]
    have hne : rect.fRight - rect.fLeft ≠ 0 := ne_of_gt hw
    field_simp
  · rw [hv]
    simp only [SkRect.inset]
    refine ⟨?_, fun h => absurd h (not_le.mpr hy), fun _ => ⟨by ring, by ring, by ring⟩⟩
    have hne : rect.fBottom - rect.fTop ≠ 0 := ne_of_gt hh
    field_simp
    ring

/-- Witness for C3: a 160 x 90 element showing 4:3 video is pillarboxed to
120 x 90. -/
theorem calVideoRect_aspect_ratio_witness :
    (calVideoRect sampleTiles sampleLayer ⟨0, 0, 160, 90⟩).width /
        (calVideoRect sampleTiles sampleLayer ⟨0, 0, 160, 90⟩).height = 4 / 3 ∧
      calVideoRect sampleTiles sampleLayer ⟨0, 0, 160, 90⟩ = ⟨20, 0, 140, 90⟩ :=
  ⟨(calVideoRect_aspect_ratio sampleTiles sampleLayer ⟨0, 0, 160, 90⟩
      (by norm_num [SkRect.width]) (by norm_num [SkRect.height])
      (by norm_num [sampleTiles, sampleManager])).1,
    by norm_num [calVideoRect, deltaX, deltaY, SkRect.inset, SkRect.width, SkRect.height,
      sampleTiles, sampleManager]⟩

/-- C6: for an element rect of positive width and height and a positive
aspect ratio, the video rect is non-empty, lies inside the element rect and
has the element rect's centre; when `deltaY < 0` the computed `deltaX` is
strictly positive, so the result is always one of the two insets and the
fall-through where neither test passes cannot happen. -/
theorem calVideoRect_within_element (tm : TilesManager) (layer : VideoLayerAndroid)
    (rect : SkRect) (hw : 0 < rect.width) (hh : 0 < rect.height)
    (ha : 0 < tm.videoLayerManager.getAspectRatio layer.base.uniqueId) :
    ((calVideoRect tm layer rect).fLeft < (calVideoRect tm layer rect).fRight ∧
        (calVideoRect tm layer rect).fTop < (calVideoRect tm layer rect).fBottom) ∧
      rect.contains (calVideoRect tm layer rect) = true ∧
      ((calVideoRect tm layer rect).centerX = rect.centerX ∧
        (calVideoRect tm layer rect).centerY = rect.centerY) ∧
      (deltaY tm layer rect < 0 → 0 < deltaX tm layer rect) ∧
      ¬ (¬ deltaY tm layer rect ≥ 0 ∧ ¬ deltaX tm layer rect ≥ 0) ∧
      ((deltaY tm layer rect ≥ 0 ∧
          calVideoRect tm layer rect = rect.inset 0 (deltaY tm layer rect / 2)) ∨
        (¬ deltaY tm layer rect ≥ 0 ∧ deltaX tm layer rect ≥ 0 ∧
          calVideoRect tm layer rect = rect.inset (deltaX tm layer rect / 2) 0)) := by
  have hx := calVideoRect_cases tm layer rect ha
  have ha0 : tm.videoLayerManager.getAspectRatio layer.base.uniqueId ≠ 0 := ne_of_gt ha
  have hq : 0 < rect.width / tm.videoLayerManager.getAspectRatio layer.base.uniqueId :=
    div_pos hw ha
  have hp : 0 < rect.height * tm.videoLayerManager.getAspectRatio layer.base.uniqueId :=
    mul_pos hh ha
  rcases hx with ⟨hy, hv⟩ | ⟨hy, hxp, hv⟩
  · refine ⟨?_, ?_, ?_, fun h => absurd h (not_lt.mpr hy), fun h => h.1 hy,
      Or.inl ⟨hy, hv⟩⟩
    · rw [hv]
      simp only [SkRect.inset, SkRect.width, SkRect.height, deltaY] at hw hh hy hq ⊢
      constructor <;> linarith
    · rw [hv]
      simp only [SkRect.inset, SkRect.contains, SkRect.width, SkRect.height, deltaY,
        Bool.and_eq_true, decide_eq_true_eq, ge_iff_le] at hw hh hy hq ⊢
      refine ⟨⟨⟨?_, ?_⟩, ?_⟩, ?_⟩ <;> linarith
    · rw [hv]
      simp only [SkRect.inset, SkRect.centerX, SkRect.centerY]
      constructor <;> ring
  · refine ⟨?_, ?_, ?_, fun _ => hxp, fun h => h.2 (le_of_lt hxp),
      Or.inr ⟨not_le.mpr hy, le_of_lt hxp, hv⟩⟩
    · rw [hv]
      simp only [SkRect.inset, SkRect.width, SkRect.height, deltaX] at hw hh hxp hp ⊢
      constructor <;> linarith
    · rw [hv]
      simp only [SkRect.inset, SkRect.contains, SkRect.width, SkRect.height, deltaX,
        Bool.and_eq_true, decide_eq_true_eq, ge_iff_le] at hw hh hxp hp ⊢
      refine ⟨⟨⟨?_, ?_⟩, ?_⟩, ?_⟩ <;> linarith
    · rw [hv]
      simp only [SkRect.inset, SkRect.centerX, SkRect.centerY]
      constructor <;> ring

/-- Witness for C6: the 120 x 90 video rect of a 160 x 90 element lies inside
it. -/
theorem calVideoRect_within_element_witness :
    (⟨0, 0, 160, 90⟩ : SkRect).contains
        (calVideoRect sampleTiles sampleLayer ⟨0, 0, 160, 90⟩) = true ∧
      0 < deltaX sampleTiles sampleLayer ⟨0, 0, 160, 90⟩ :=
  ⟨(calVideoRect_within_element sampleTiles sampleLayer ⟨0, 0, 160, 90⟩
      (by norm_num [SkRect.width]) (by norm_num [SkRect.height])
      (by norm_num [sampleTiles, sampleManager])).2.1,
    (calVideoRect_within_element sampleTiles sampleLayer ⟨0, 0, 160, 90⟩
      (by norm_num [SkRect.width]) (by norm_num [SkRect.height])
      (by norm_num [sampleTiles, sampleManager])).2.2.2.1
      (by norm_num [deltaY, SkRect.width, SkRect.height, sampleTiles, sampleManager])⟩

/-! ## The shape of a drawGL trace -/

/-- In state `PREPARING` the trace is the prologue, the spinner and the
children. -/
theorem drawGL_calls_preparing (tm : TilesManager) (layer : VideoLayerAndroid)
    (rot : ℚ) (h : layer.m_playerState = PlayerState.PREPARING) :
    (drawGL tm layer rot).calls = prologue tm layer ++
      (showPreparingAnimation tm layer rot (videoRect tm layer)
        (innerRect tm (videoRect tm layer))).1 ++ [GLCall.drawChildrenGL] := by
  simp [drawGL, h, prologue, videoRect, elementRect]

/-- In state `PLAYING` with a surface texture the trace is the prologue, the
frame update and draw, the play icon overlay and the children. -/
theorem drawGL_calls_playing (tm : TilesManager) (layer : VideoLayerAndroid)
    (rot : ℚ) (texture : SurfaceTexture)
    (h : layer.m_playerState = PlayerState.PLAYING)
    (ht : layer.m_surfaceTexture = some texture) :
    (drawGL tm layer rot).calls = prologue tm layer ++
      [GLCall.updateTexImage texture, GLCall.getTransformMatrix texture,
        GLCall.drawVideoLayerQuad layer.base.m_drawTransform texture.transformMatrix
          (videoRect tm layer) (tm.videoLayerManager.getTextureId layer.base.uniqueId),
        GLCall.updateMatrix layer.base.uniqueId texture.transformMatrix] ++
      (drawIconOverlay tm layer (innerRect tm (videoRect tm layer)) IconType.PlayIcon
        tm.videoLayerManager.getPlayTextureId).1 ++ [GLCall.drawChildrenGL] := by
  simp [drawGL, h, ht, prologue, videoRect, elementRect]

/-- In every other case with a cached screenshot the trace is the prologue,
the screenshot quad, the pause icon overlay and the children. -/
theorem drawGL_calls_screenshot (tm : TilesManager) (layer : VideoLayerAndroid)
    (rot : ℚ) (matrix : List ℚ)
    (h1 : layer.m_playerState ≠ PlayerState.PREPARING)
    (h2 : ¬ (layer.m_playerState = PlayerState.PLAYING ∧ layer.m_surfaceTexture ≠ none))
    (hid : tm.videoLayerManager.getTextureId layer.base.uniqueId ≠ 0)
    (hm : tm.videoLayerManager.getMatrix layer.base.uniqueId = some matrix) :
    (drawGL tm layer rot).calls = prologue tm layer ++
      [GLCall.drawVideoLayerQuad layer.base.m_drawTransform matrix
        (videoRect tm layer) (tm.videoLayerManager.getTextureId layer.base.uniqueId)] ++
      (drawIconOverlay tm layer (innerRect tm (videoRect tm layer)) IconType.PauseIcon
        tm.videoLayerManager.getPauseTextureId).1 ++ [GLCall.drawChildrenGL] := by
  have h2' : ¬ (layer.m_playerState = PlayerState.PLAYING ∧
      layer.m_surfaceTexture.isSome = true) := by
    simpa [Option.isSome_iff_ne_none] using h2
  simp [drawGL, h1, h2', hid, hm, prologue, videoRect, elementRect]

/-- In every other case without a cached screenshot the trace is the
prologue, the two poster quads, the pause icon overlay and the children. -/
theorem drawGL_calls_poster (tm : TilesManager) (layer : VideoLayerAndroid)
    (rot : ℚ)
    (h1 : layer.m_playerState ≠ PlayerState.PREPARING)
    (h2 : ¬ (layer.m_playerState = PlayerState.PLAYING ∧ layer.m_surfaceTexture ≠ none))
    (hc : ¬ (tm.videoLayerManager.getTextureId layer.base.uniqueId ≠ 0 ∧
      tm.videoLayerManager.getMatrix layer.base.uniqueId ≠ none)) :
    (drawGL tm layer rot).calls = prologue tm layer ++
      [posterBackground layer, posterQuad tm layer] ++
      (drawIconOverlay tm layer (innerRect tm (videoRect tm layer)) IconType.PauseIcon
        tm.videoLayerManager.getPauseTextureId).1 ++ [GLCall.drawChildrenGL] := by
  have h2' : ¬ (layer.m_playerState = PlayerState.PLAYING ∧
      layer.m_surfaceTexture.isSome = true) := by
    simpa [Option.isSome_iff_ne_none] using h2
  have hc' : ¬ (tm.videoLayerManager.getTextureId layer.base.uniqueId ≠ 0 ∧
      (tm.videoLayerManager.getMatrix layer.base.uniqueId).isSome = true) := by
    simpa [Option.isSome_iff_ne_none] using hc
  simp only [drawGL, if_neg h1, dif_neg h2', dif_neg hc']
  simp [prologue, videoRect, elementRect, posterBackground, posterQuad]

/-! ## Reading the branch off the trace -/

/-- The spinner shows in the trace of `drawGL` exactly in state `PREPARING`. -/
theorem spinnerDrawn_iff (tm : TilesManager) (layer : VideoLayerAndroid) (rot : ℚ) :
    spinnerDrawn tm layer rot (drawGL tm layer rot).calls ↔
      layer.m_playerState = PlayerState.PREPARING := by
  by_cases hp : layer.m_playerState = PlayerState.PREPARING
  · simp only [hp, iff_true]
    rw [spinnerDrawn, drawGL_calls_preparing tm layer rot hp]
    exact ⟨prologue tm layer, [GLCall.drawChildrenGL], rfl⟩
  · simp only [hp, iff_false]
    by_cases hl : layer.m_playerState = PlayerState.PLAYING ∧ layer.m_surfaceTexture ≠ none
    · obtain ⟨t, ht⟩ := Option.ne_none_iff_exists'.mp hl.2
      rw [spinnerDrawn, drawGL_calls_playing tm layer rot t hl.1 ht]
      simp only [prologue, showPreparingAnimation, drawIconOverlay]
      split_ifs <;> simp [List.infix_cons_iff]
    · by_cases hc : tm.videoLayerManager.getTextureId layer.base.uniqueId ≠ 0 ∧
          tm.videoLayerManager.getMatrix layer.base.uniqueId ≠ none
      · obtain ⟨m, hm⟩ := Option.ne_none_iff_exists'.mp hc.2
        rw [spinnerDrawn, drawGL_calls_screenshot tm layer rot m hp hl hc.1 hm]
        simp only [prologue, showPreparingAnimation, drawIconOverlay]
        split_ifs <;> simp [List.infix_cons_iff]
      · rw [spinnerDrawn, drawGL_calls_poster tm layer rot hp hl hc]
        simp only [prologue, showPreparingAnimation, drawIconOverlay, posterBackground,
          posterQuad]
        split_ifs <;> simp [List.infix_cons_iff]

/-- An `updateTexImage` is in the trace of `drawGL` exactly in state `PLAYING`
with a surface texture. -/
theorem updateTexImage_mem_iff (tm : TilesManager) (layer : VideoLayerAndroid) (rot : ℚ) :
    (∃ texture, GLCall.updateTexImage texture ∈ (drawGL tm layer rot).calls) ↔
      layer.m_playerState = PlayerState.PLAYING ∧ layer.m_surfaceTexture ≠ none := by
  by_cases hl : layer.m_playerState = PlayerState.PLAYING ∧ layer.m_surfaceTexture ≠ none
  · simp only [hl, ne_eq, not_false_eq_true, and_self, iff_true]
    obtain ⟨t, ht⟩ := Option.ne_none_iff_exists'.mp hl.2
    refine ⟨t, ?_⟩
    rw [drawGL_calls_playing tm layer rot t hl.1 ht]
    simp
  · simp only [hl, iff_false, not_exists]
    intro t
    by_cases hp : layer.m_playerState = PlayerState.PREPARING
    · rw [drawGL_calls_preparing tm layer rot hp]
      simp only [prologue, showPreparingAnimation]
      split_ifs <;> simp
    · by_cases hc : tm.videoLayerManager.getTextureId layer.base.uniqueId ≠ 0 ∧
          tm.videoLayerManager.getMatrix layer.base.uniqueId ≠ none
      · obtain ⟨m, hm⟩ := Option.ne_none_iff_exists'.mp hc.2
        rw [drawGL_calls_screenshot tm layer rot m hp hl hc.1 hm]
        simp only [prologue, drawIconOverlay]
        split_ifs <;> simp
      · rw [drawGL_calls_poster tm layer rot hp hl hc]
        simp only [prologue, drawIconOverlay, posterBackground, posterQuad]
        split_ifs <;> simp

/-- The live frame shows in the trace of `drawGL` exactly in state `PLAYING`
with a surface texture. -/
theorem liveFrameDrawn_iff (tm : TilesManager) (layer : VideoLayerAndroid) (rot : ℚ) :
    liveFrameDrawn tm layer (drawGL tm layer rot).calls ↔
      layer.m_playerState = PlayerState.PLAYING ∧ layer.m_surfaceTexture ≠ none := by
  constructor
  · rintro ⟨t, m, hsub⟩
    exact (updateTexImage_mem_iff tm layer rot).mp
      ⟨t, hsub.subset (List.mem_cons_self _ _)⟩
  · intro hl
    obtain ⟨t, ht⟩ := Option.ne_none_iff_exists'.mp hl.2
    refine ⟨t, t.transformMatrix, ?_⟩
    rw [drawGL_calls_playing tm layer rot t hl.1 ht]
    simp only [prologue]
    split_ifs <;> simp

/-- A `drawIcon` query for `PauseIcon` is in the trace of `drawGL` exactly
when the state is neither `PREPARING` nor `PLAYING` with a surface texture. -/
theorem pauseQuery_mem_iff (tm : TilesManager) (layer : VideoLayerAndroid) (rot : ℚ) :
    GLCall.drawIcon layer.base.uniqueId IconType.PauseIcon ∈ (drawGL tm layer rot).calls ↔
      layer.m_playerState ≠ PlayerState.PREPARING ∧
        ¬ (layer.m_playerState = PlayerState.PLAYING ∧ layer.m_surfaceTexture ≠ none) := by
  by_cases hp : layer.m_playerState = PlayerState.PREPARING
  · simp only [hp, ne_eq, not_true_eq_false, false_and, iff_false]
    rw [drawGL_calls_preparing tm layer rot hp]
    simp only [prologue, showPreparingAnimation]
    split_ifs <;> simp
  · by_cases hl : layer.m_playerState = PlayerState.PLAYING ∧ layer.m_surfaceTexture ≠ none
    · simp only [hl, ne_eq, not_true_eq_false, and_false, iff_false, and_self]
      obtain ⟨t, ht⟩ := Option.ne_none_iff_exists'.mp hl.2
      rw [drawGL_calls_playing tm layer rot t hl.1 ht]
      simp only [prologue, drawIconOverlay]
      split_ifs <;> simp
    · refine ⟨fun _ => ⟨hp, hl⟩, fun _ => ?_⟩
      by_cases hc : tm.videoLayerManager.getTextureId layer.base.uniqueId ≠ 0 ∧
          tm.videoLayerManager.getMatrix layer.base.uniqueId ≠ none
      · obtain ⟨m, hm⟩ := Option.ne_none_iff_exists'.mp hc.2
        rw [drawGL_calls_screenshot tm layer rot m hp hl hc.1 hm]
        simp only [prologue, drawIconOverlay]
        split_ifs <;> simp
      · rw [drawGL_calls_poster tm layer rot hp hl hc]
        simp only [prologue, drawIconOverlay, posterBackground, posterQuad]
        split_ifs <;> simp

/-- The screenshot / poster branch shows in the trace of `drawGL` exactly when
the state is neither `PREPARING` nor `PLAYING` with a surface texture. -/
theorem screenshotOrPosterBranch_iff (tm : TilesManager) (layer : VideoLayerAndroid)
    (rot : ℚ) :
    screenshotOrPosterBranch tm layer (drawGL tm layer rot).calls ↔
      layer.m_playerState ≠ PlayerState.PREPARING ∧
        ¬ (layer.m_playerState = PlayerState.PLAYING ∧ layer.m_surfaceTexture ≠ none) := by
  constructor
  · intro h
    apply (pauseQuery_mem_iff tm layer rot).mp
    rcases h with ⟨m, -, hin⟩ | hin
    · exact hin.subset (by simp)
    · exact hin.subset (by simp)
  · rintro ⟨hp, hl⟩
    by_cases hc : tm.videoLayerManager.getTextureId layer.base.uniqueId ≠ 0 ∧
        tm.videoLayerManager.getMatrix layer.base.uniqueId ≠ none
    · obtain ⟨m, hm⟩ := Option.ne_none_iff_exists'.mp hc.2
      left
      refine ⟨m, hm, ?_⟩
      rw [drawGL_calls_screenshot tm layer rot m hp hl hc.1 hm]
      simp only [prologue, drawIconOverlay]
      split_ifs <;> simp [List.infix_cons_iff]
    · right
      rw [drawGL_calls_poster tm layer rot hp hl hc]
      simp only [prologue, drawIconOverlay]
      split_ifs <;> simp [List.infix_cons_iff]

/-- C1: in the trace of one `drawGL` call the spinner shows if and only if
the state is `PREPARING`; the live frame (`updateTexImage`, then
`drawVideoLayerQuad` over the video rect with the layer's draw transform and
the manager's texture id) shows if and only if the state is `PLAYING` and the
surface texture is non-null, and then the frame calls are made on that
texture; the screenshot / poster branch shows in every other case; and exactly
one of the three shows. -/
theorem drawGL_content_by_state (tm : TilesManager) (layer : VideoLayerAndroid)
    (rot : ℚ) :
    (spinnerDrawn tm layer rot (drawGL tm layer rot).calls ↔
        layer.m_playerState = PlayerState.PREPARING) ∧
      (liveFrameDrawn tm layer (drawGL tm layer rot).calls ↔
        layer.m_playerState = PlayerState.PLAYING ∧ layer.m_surfaceTexture ≠ none) ∧
      (∀ texture, layer.m_playerState = PlayerState.PLAYING →
        layer.m_surfaceTexture = some texture →
        [GLCall.updateTexImage texture, GLCall.getTransformMatrix texture,
          GLCall.drawVideoLayerQuad layer.base.m_drawTransform texture.transformMatrix
            (videoRect tm layer) (tm.videoLayerManager.getTextureId layer.base.uniqueId)]
          <:+: (drawGL tm layer rot).calls) ∧
      (screenshotOrPosterBranch tm layer (drawGL tm layer rot).calls ↔
        ¬ layer.m_playerState = PlayerState.PREPARING ∧
          ¬ (layer.m_playerState = PlayerState.PLAYING ∧
            layer.m_surfaceTexture ≠ none)) ∧
      ((spinnerDrawn tm layer rot (drawGL tm layer rot).calls ∧
          ¬ liveFrameDrawn tm layer (drawGL tm layer rot).calls ∧
          ¬ screenshotOrPosterBranch tm layer (drawGL tm layer rot).calls) ∨
        (¬ spinnerDrawn tm layer rot (drawGL tm layer rot).calls ∧
          liveFrameDrawn tm layer (drawGL tm layer rot).calls ∧
          ¬ screenshotOrPosterBranch tm layer (drawGL tm layer rot).calls) ∨
        (¬ spinnerDrawn tm layer rot (drawGL tm layer rot).calls ∧
          ¬ liveFrameDrawn tm layer (drawGL tm layer rot).calls ∧
          screenshotOrPosterBranch tm layer (drawGL tm layer rot).calls)) := by
  refine ⟨spinnerDrawn_iff tm layer rot, liveFrameDrawn_iff tm layer rot, ?_,
    screenshotOrPosterBranch_iff tm layer rot, ?_⟩
  · intro t hl ht
    rw [drawGL_calls_playing tm layer rot t hl ht]
    simp only [prologue]
    split_ifs <;> simp [List.infix_cons_iff]
  · rw [spinnerDrawn_iff, liveFrameDrawn_iff, screenshotOrPosterBranch_iff]
    by_cases hp : layer.m_playerState = PlayerState.PREPARING
    · left
      simp [hp]
    · by_cases hl : layer.m_playerState = PlayerState.PLAYING ∧
          layer.m_surfaceTexture ≠ none
      · right; left
        exact ⟨hp, hl, fun h => h.2 hl⟩
      · right; right
        exact ⟨hp, hl, hp, hl⟩

/-- Sample for C1: the playing sample layer shows the live frame and no
spinner; the fresh sample layer shows the screenshot / poster branch. -/
theorem drawGL_content_by_state_witness :
    liveFrameDrawn sampleTiles playingLayer (drawGL sampleTiles playingLayer 0).calls ∧
      ¬ spinnerDrawn sampleTiles playingLayer 0 (drawGL sampleTiles playingLayer 0).calls ∧
      screenshotOrPosterBranch sampleTiles sampleLayer
        (drawGL sampleTiles sampleLayer 0).calls :=
  ⟨(drawGL_content_by_state sampleTiles playingLayer 0).2.1.mpr
      ⟨rfl, Option.some_ne_none sampleTexture⟩,
    fun h => absurd ((drawGL_content_by_state sampleTiles playingLayer 0).1.mp h)
      (by decide),
    (drawGL_content_by_state sampleTiles sampleLayer 0).2.2.2.1.mpr
      ⟨by decide, fun h => absurd h.1 (by decide)⟩⟩

/-! ## Screenshot or poster -/

/-- C2: when the trace of `drawGL` shows neither the spinner nor the live
frame, it shows the cached screenshot if and only if the manager's texture id
for the layer is nonzero and its cached matrix is non-null, it shows the
poster (gray quad over the element rect, then the poster texture in the inner
rect) if and only if not, and it never shows both. -/
theorem drawGL_screenshot_or_poster (tm : TilesManager) (layer : VideoLayerAndroid)
    (rot : ℚ) (hs : ¬ spinnerDrawn tm layer rot (drawGL tm layer rot).calls)
    (hl : ¬ liveFrameDrawn tm layer (drawGL tm layer rot).calls) :
    (screenshotDrawn tm layer (drawGL tm layer rot).calls ↔
        tm.videoLayerManager.getTextureId layer.base.uniqueId ≠ 0 ∧
          tm.videoLayerManager.getMatrix layer.base.uniqueId ≠ none) ∧
      (posterDrawn tm layer (drawGL tm layer rot).calls ↔
        ¬ (tm.videoLayerManager.getTextureId layer.base.uniqueId ≠ 0 ∧
          tm.videoLayerManager.getMatrix layer.base.uniqueId ≠ none)) ∧
      ¬ (screenshotDrawn tm layer (drawGL tm layer rot).calls ∧
        posterDrawn tm layer (drawGL tm layer rot).calls) := by
  have hp : layer.m_playerState ≠ PlayerState.PREPARING :=
    fun h => hs ((spinnerDrawn_iff tm layer rot).mpr h)
  have hl' : ¬ (layer.m_playerState = PlayerState.PLAYING ∧
      layer.m_surfaceTexture ≠ none) :=
    fun h => hl ((liveFrameDrawn_iff tm layer rot).mpr h)
  by_cases hc : tm.videoLayerManager.getTextureId layer.base.uniqueId ≠ 0 ∧
      tm.videoLayerManager.getMatrix layer.base.uniqueId ≠ none
  · obtain ⟨m, hm⟩ := Option.ne_none_iff_exists'.mp hc.2
    have hshot : screenshotDrawn tm layer (drawGL tm layer rot).calls := by
      refine ⟨m, hm, ?_⟩
      rw [drawGL_calls_screenshot tm layer rot m hp hl' hc.1 hm]
      simp
    have hposter : ¬ posterDrawn tm layer (drawGL tm layer rot).calls := by
      rw [posterDrawn, drawGL_calls_screenshot tm layer rot m hp hl' hc.1 hm]
      simp only [prologue, drawIconOverlay, posterBackground, posterQuad]
      split_ifs <;> simp [List.infix_cons_iff]
    exact ⟨⟨fun _ => hc, fun _ => hshot⟩, ⟨fun h => absurd h hposter, fun h => absurd hc h⟩,
      fun h => hposter h.2⟩
  · have hshot : ¬ screenshotDrawn tm layer (drawGL tm layer rot).calls := by
      rintro ⟨m, -, hmem⟩
      rw [drawGL_calls_poster tm layer rot hp hl' hc] at hmem
      simp only [prologue, drawIconOverlay, posterBackground, posterQuad] at hmem
      split_ifs at hmem <;> simp at hmem
    have hposter : posterDrawn tm layer (drawGL tm layer rot).calls := by
      rw [posterDrawn, drawGL_calls_poster tm layer rot hp hl' hc]
      exact ⟨prologue tm layer, (drawIconOverlay tm layer (innerRect tm (videoRect tm layer))
        IconType.PauseIcon tm.videoLayerManager.getPauseTextureId).1 ++
          [GLCall.drawChildrenGL], by simp⟩
    exact ⟨⟨fun h => absurd h hshot, fun h => absurd h hc⟩, ⟨fun _ => hc, fun _ => hposter⟩,
      fun h => hshot h.1⟩

/-- Witness for C2: a freshly constructed layer shows the poster. -/
theorem drawGL_screenshot_or_poster_witness :
    posterDrawn sampleTiles sampleLayer (drawGL sampleTiles sampleLayer 0).calls :=
  (drawGL_screenshot_or_poster sampleTiles sampleLayer 0
    (fun h => absurd ((spinnerDrawn_iff sampleTiles sampleLayer 0).mp h) (by decide))
    (fun h => absurd ((liveFrameDrawn_iff sampleTiles sampleLayer 0).mp h).1
      (by decide))).2.1.mpr (fun h => h.1 rfl)

/-! ## Children and the redraw request -/

/-- The value `drawGL` returns. -/
theorem drawGL_ret (tm : TilesManager) (layer : VideoLayerAndroid) (rot : ℚ) :
    (drawGL tm layer rot).ret = true ↔
      layer.base.drawChildrenGL = true ∨
        layer.m_playerState = PlayerState.PREPARING ∨
        (layer.m_playerState = PlayerState.PLAYING ∧ layer.m_surfaceTexture ≠ none ∧
          tm.videoLayerManager.drawIcon layer.base.uniqueId IconType.PlayIcon ≠ 0) ∨
        (layer.m_playerState ≠ PlayerState.PREPARING ∧
          ¬ (layer.m_playerState = PlayerState.PLAYING ∧ layer.m_surfaceTexture ≠ none) ∧
          tm.videoLayerManager.drawIcon layer.base.uniqueId IconType.PauseIcon ≠ 0) := by
  by_cases hp : layer.m_playerState = PlayerState.PREPARING
  · simp [drawGL, hp]
  · by_cases hl : layer.m_playerState = PlayerState.PLAYING ∧
        layer.m_surfaceTexture.isSome = true
    · have hl' : layer.m_playerState = PlayerState.PLAYING ∧
          layer.m_surfaceTexture ≠ none := by
        simpa [Option.isSome_iff_ne_none] using hl
      simp only [drawGL, if_neg hp, dif_pos hl, drawIconOverlay]
      split_ifs with hsc <;> simp [hp, hl', hsc]
    · have hl' : ¬ (layer.m_playerState = PlayerState.PLAYING ∧
          layer.m_surfaceTexture ≠ none) := by
        simpa [Option.isSome_iff_ne_none] using hl
      simp only [drawGL, if_neg hp, dif_neg hl, drawIconOverlay]
      split_ifs with hsc
      · simp [hp, hl', hsc]
      · simp only [Bool.or_false, hp, hsc, false_or, and_false, or_false]
        exact ⟨Or.inl, fun h => h.elim id (fun h' => absurd ⟨h'.1, h'.2.1⟩ hl')⟩

/-- The `drawIcon` queries in the trace of `drawGL`: none in state
`PREPARING`, the play icon of this layer in state `PLAYING` with a surface
texture, the pause icon of this layer otherwise. -/
theorem drawIcon_mem_iff (tm : TilesManager) (layer : VideoLayerAndroid) (rot : ℚ)
    (layerId : Int) (type : IconType) :
    GLCall.drawIcon layerId type ∈ (drawGL tm layer rot).calls ↔
      layerId = layer.base.uniqueId ∧
        ((type = IconType.PlayIcon ∧ layer.m_playerState = PlayerState.PLAYING ∧
            layer.m_surfaceTexture ≠ none) ∨
          (type = IconType.PauseIcon ∧ layer.m_playerState ≠ PlayerState.PREPARING ∧
            ¬ (layer.m_playerState = PlayerState.PLAYING ∧
              layer.m_surfaceTexture ≠ none))) := by
  by_cases hp : layer.m_playerState = PlayerState.PREPARING
  · rw [drawGL_calls_preparing tm layer rot hp]
    simp only [prologue, showPreparingAnimation]
    split_ifs <;> simp [hp]
  · by_cases hl : layer.m_playerState = PlayerState.PLAYING ∧ layer.m_surfaceTexture ≠ none
    · obtain ⟨t, ht⟩ := Option.ne_none_iff_exists'.mp hl.2
      rw [drawGL_calls_playing tm layer rot t hl.1 ht]
      simp only [prologue, drawIconOverlay]
      split_ifs <;> simp [hl.1, ht]
    · by_cases hc : tm.videoLayerManager.getTextureId layer.base.uniqueId ≠ 0 ∧
          tm.videoLayerManager.getMatrix layer.base.uniqueId ≠ none
      · obtain ⟨m, hm⟩ := Option.ne_none_iff_exists'.mp hc.2
        rw [drawGL_calls_screenshot tm layer rot m hp hl hc.1 hm]
        simp only [prologue, drawIconOverlay]
        split_ifs <;> simp [hp, hl]
      · rw [drawGL_calls_poster tm layer rot hp hl hc]
        simp only [prologue, drawIconOverlay, posterBackground, posterQuad]
        split_ifs <;> simp [hp, hl]

/-- The children are drawn exactly once per `drawGL` call. -/
theorem drawChildrenGL_count (tm : TilesManager) (layer : VideoLayerAndroid) (rot : ℚ) :
    (drawGL tm layer rot).calls.count GLCall.drawChildrenGL = 1 := by
  by_cases hp : layer.m_playerState = PlayerState.PREPARING
  · rw [drawGL_calls_preparing tm layer rot hp]
    simp only [prologue, showPreparingAnimation]
    split_ifs <;> simp [List.count_cons]
  · by_cases hl : layer.m_playerState = PlayerState.PLAYING ∧ layer.m_surfaceTexture ≠ none
    · obtain ⟨t, ht⟩ := Option.ne_none_iff_exists'.mp hl.2
      rw [drawGL_calls_playing tm layer rot t hl.1 ht]
      simp only [prologue, drawIconOverlay]
      split_ifs <;> simp [List.count_cons]
    · by_cases hc : tm.videoLayerManager.getTextureId layer.base.uniqueId ≠ 0 ∧
          tm.videoLayerManager.getMatrix layer.base.uniqueId ≠ none
      · obtain ⟨m, hm⟩ := Option.ne_none_iff_exists'.mp hc.2
        rw [drawGL_calls_screenshot tm layer rot m hp hl hc.1 hm]
        simp only [prologue, drawIconOverlay]
        split_ifs <;> simp [List.count_cons]
      · rw [drawGL_calls_poster tm layer rot hp hl hc]
        simp only [prologue, drawIconOverlay, posterBackground, posterQuad]
        split_ifs <;> simp [List.count_cons]

/-- C4: every `drawGL` call draws the children exactly once, in every state,
and returns true if and only if `drawChildrenGL()` returned true, or the
state is `PREPARING`, or the scale the manager's `drawIcon` answered for this
layer in this call is nonzero. -/
theorem drawGL_children_and_redraw (tm : TilesManager) (layer : VideoLayerAndroid)
    (rot : ℚ) :
    (drawGL tm layer rot).calls.count GLCall.drawChildrenGL = 1 ∧
      ((drawGL tm layer rot).ret = true ↔
        layer.base.drawChildrenGL = true ∨
          layer.m_playerState = PlayerState.PREPARING ∨
          ∃ type, GLCall.drawIcon layer.base.uniqueId type ∈ (drawGL tm layer rot).calls ∧
            tm.videoLayerManager.drawIcon layer.base.uniqueId type ≠ 0) := by
  refine ⟨drawChildrenGL_count tm layer rot, ?_⟩
  rw [drawGL_ret]
  constructor
  · rintro (h | h | ⟨h1, h2, h3⟩ | ⟨h1, h2, h3⟩)
    · exact Or.inl h
    · exact Or.inr (Or.inl h)
    · exact Or.inr (Or.inr ⟨IconType.PlayIcon,
        (drawIcon_mem_iff tm layer rot _ _).mpr ⟨rfl, Or.inl ⟨rfl, h1, h2⟩⟩, h3⟩)
    · exact Or.inr (Or.inr ⟨IconType.PauseIcon,
        (drawIcon_mem_iff tm layer rot _ _).mpr ⟨rfl, Or.inr ⟨rfl, h1, h2⟩⟩, h3⟩)
  · rintro (h | h | ⟨type, hmem, hsc⟩)
    · exact Or.inl h
    · exact Or.inr (Or.inl h)
    · rcases ((drawIcon_mem_iff tm layer rot _ _).mp hmem).2 with ⟨ht, h1, h2⟩ | ⟨ht, h1, h2⟩
      · subst ht
        exact Or.inr (Or.inr (Or.inl ⟨h1, h2, hsc⟩))
      · subst ht
        exact Or.inr (Or.inr (Or.inr ⟨h1, h2, hsc⟩))

/-- Sample for C4: the fresh sample layer draws its children once; with the
icon animation running `drawGL` asks for a redraw, without it it does not. -/
theorem drawGL_children_and_redraw_witness :
    (drawGL sampleTiles sampleLayer 0).calls.count GLCall.drawChildrenGL = 1 ∧
      (drawGL fadingTiles sampleLayer 0).ret = true ∧
      ¬ (drawGL sampleTiles sampleLayer 0).ret = true :=
  ⟨(drawGL_children_and_redraw sampleTiles sampleLayer 0).1,
    (drawGL_children_and_redraw fadingTiles sampleLayer 0).2.mpr
      (Or.inr (Or.inr ⟨IconType.PauseIcon,
        (drawIcon_mem_iff fadingTiles sampleLayer 0 _ _).mpr
          ⟨rfl, Or.inr ⟨rfl, by decide, fun h => absurd h.1 (by decide)⟩⟩,
        by norm_num [fadingTiles, fadingManager]⟩)),
    fun h => ((drawGL_children_and_redraw sampleTiles sampleLayer 0).2.mp h).elim
      (fun h1 => absurd h1 (by decide))
      (fun h2 => h2.elim (fun h3 => absurd h3 (by decide))
        (fun ⟨_, _, h4⟩ => h4 rfl))⟩

/-! ## The play / pause icon -/

/-- Once `drawGL` has asked `drawIcon` about an icon, the icon quad follows
the query directly if and only if the scale is nonzero, and is nowhere in the
trace otherwise. -/
theorem iconQuad_iff (tm : TilesManager) (layer : VideoLayerAndroid) (rot : ℚ)
    (type : IconType)
    (hq : GLCall.drawIcon layer.base.uniqueId type ∈ (drawGL tm layer rot).calls) :
    ([GLCall.drawIcon layer.base.uniqueId type, iconQuad tm layer type] <:+:
        (drawGL tm layer rot).calls ↔
          tm.videoLayerManager.drawIcon layer.base.uniqueId type ≠ 0) ∧
      (iconQuad tm layer type ∈ (drawGL tm layer rot).calls ↔
        tm.videoLayerManager.drawIcon layer.base.uniqueId type ≠ 0) := by
  rcases ((drawIcon_mem_iff tm layer rot _ _).mp hq).2 with ⟨ht, h1, h2⟩ | ⟨ht, hp, hl⟩
  · subst ht
    obtain ⟨t, hst⟩ := Option.ne_none_iff_exists'.mp h2
    rw [drawGL_calls_playing tm layer rot t h1 hst]
    simp only [prologue, drawIconOverlay, iconQuad, iconTextureId]
    split_ifs with hb hsc hsc <;> simp [List.infix_cons_iff, hsc]
  · subst ht
    by_cases hc : tm.videoLayerManager.getTextureId layer.base.uniqueId ≠ 0 ∧
        tm.videoLayerManager.getMatrix layer.base.uniqueId ≠ none
    · obtain ⟨m, hm⟩ := Option.ne_none_iff_exists'.mp hc.2
      rw [drawGL_calls_screenshot tm layer rot m hp hl hc.1 hm]
      simp only [prologue, drawIconOverlay, iconQuad, iconTextureId]
      split_ifs with hb hsc hsc <;> simp [List.infix_cons_iff, hsc]
    · rw [drawGL_calls_poster tm layer rot hp hl hc]
      simp only [prologue, drawIconOverlay, iconQuad, iconTextureId, posterBackground,
        posterQuad]
      split_ifs with hb hsc hsc <;> simp [List.infix_cons_iff, hsc] <;>
        simp only [ne_eq, not_not] at hsc <;> simp [hsc]

/-- The integer quarter of a button size that 4 divides is its exact
quarter. -/
theorem quarter_of_dvd (b : Int) (h : 4 ∣ b) : ((b.tdiv 4 : Int) : ℚ) = (b : ℚ) / 4 := by
  obtain ⟨k, rfl⟩ := h
  rw [Int.mul_tdiv_cancel_left k (by norm_num)]
  push_cast
  ring

/-- The icon rect keeps the centre of the inner rect; for an inner rect that
is a square of the button size it is a square of side
`buttonSize - 2 * (buttonSize / 4) * scale` with the integer quotient, which
is `buttonSize * (1 - scale / 2)` when 4 divides the button size. -/
theorem iconRect_geometry (tm : TilesManager) (r : SkRect) (scale : ℚ) :
    (iconRect tm r scale).centerX = r.centerX ∧
      (iconRect tm r scale).centerY = r.centerY ∧
      (r.width = (tm.videoLayerManager.getButtonSize : ℚ) →
        (iconRect tm r scale).width = (tm.videoLayerManager.getButtonSize : ℚ) -
          2 * ((tm.videoLayerManager.getButtonSize.tdiv 4 : Int) : ℚ) * scale) ∧
      (r.height = (tm.videoLayerManager.getButtonSize : ℚ) →
        (iconRect tm r scale).height = (tm.videoLayerManager.getButtonSize : ℚ) -
          2 * ((tm.videoLayerManager.getButtonSize.tdiv 4 : Int) : ℚ) * scale) ∧
      (4 ∣ tm.videoLayerManager.getButtonSize →
        (r.width = (tm.videoLayerManager.getButtonSize : ℚ) →
          (iconRect tm r scale).width =
            (tm.videoLayerManager.getButtonSize : ℚ) * (1 - scale / 2)) ∧
        (r.height = (tm.videoLayerManager.getButtonSize : ℚ) →
          (iconRect tm r scale).height =
            (tm.videoLayerManager.getButtonSize : ℚ) * (1 - scale / 2))) := by
  simp only [iconRect, SkRect.inset, SkRect.centerX, SkRect.centerY, SkRect.width,
    SkRect.height]
  refine ⟨by ring, by ring, fun h => ?_, fun h => ?_, fun hd => ⟨fun h => ?_, fun h => ?_⟩⟩
  · rw [← h]; ring
  · rw [← h]; ring
  · rw [quarter_of_dvd _ hd, ← h]; ring
  · rw [quarter_of_dvd _ hd, ← h]; ring

/-- C7, as amended: `drawGL` asks `drawIcon` about `PlayIcon` of this layer in
the live-frame case, about `PauseIcon` of this layer in the screenshot /
poster case, and about nothing in state `PREPARING`; the icon quad is drawn,
right after the query, if and only if the scale answered is nonzero; it is
drawn with the layer's draw transform, the icon's texture, opacity equal to
the scale and the inner rect inset on every side by `(buttonSize / 4) * scale`
with the integer quotient `buttonSize / 4`, which keeps the centre of the
inner rect and, for an inner rect that is a square of the button size, has
side `buttonSize - 2 * (buttonSize / 4) * scale`; that is
`buttonSize * (1 - scale / 2)` when 4 divides the button size. -/
theorem drawGL_icon_overlay (tm : TilesManager) (layer : VideoLayerAndroid) (rot : ℚ) :
    (∀ layerId type, GLCall.drawIcon layerId type ∈ (drawGL tm layer rot).calls ↔
        layerId = layer.base.uniqueId ∧
          ((type = IconType.PlayIcon ∧ layer.m_playerState = PlayerState.PLAYING ∧
              layer.m_surfaceTexture ≠ none) ∨
            (type = IconType.PauseIcon ∧ layer.m_playerState ≠ PlayerState.PREPARING ∧
              ¬ (layer.m_playerState = PlayerState.PLAYING ∧
                layer.m_surfaceTexture ≠ none)))) ∧
      (layer.m_playerState = PlayerState.PREPARING →
        ∀ layerId type, GLCall.drawIcon layerId type ∉ (drawGL tm layer rot).calls) ∧
      (∀ type, GLCall.drawIcon layer.base.uniqueId type ∈ (drawGL tm layer rot).calls →
        ([GLCall.drawIcon layer.base.uniqueId type, iconQuad tm layer type] <:+:
            (drawGL tm layer rot).calls ↔
          tm.videoLayerManager.drawIcon layer.base.uniqueId type ≠ 0) ∧
        (iconQuad tm layer type ∈ (drawGL tm layer rot).calls ↔
          tm.videoLayerManager.drawIcon layer.base.uniqueId type ≠ 0)) ∧
      (∀ type, iconQuad tm layer type =
        GLCall.drawLayerQuad layer.base.m_drawTransform
          ((innerRect tm (videoRect tm layer)).inset
            (((tm.videoLayerManager.getButtonSize.tdiv 4 : Int) : ℚ) *
              tm.videoLayerManager.drawIcon layer.base.uniqueId type)
            (((tm.videoLayerManager.getButtonSize.tdiv 4 : Int) : ℚ) *
              tm.videoLayerManager.drawIcon layer.base.uniqueId type))
          (match type with
            | IconType.PlayIcon => tm.videoLayerManager.getPlayTextureId
            | IconType.PauseIcon => tm.videoLayerManager.getPauseTextureId)
          (tm.videoLayerManager.drawIcon layer.base.uniqueId type) true none none) ∧
      (∀ (r : SkRect) (scale : ℚ),
        ((r.inset (((tm.videoLayerManager.getButtonSize.tdiv 4 : Int) : ℚ) * scale)
            (((tm.videoLayerManager.getButtonSize.tdiv 4 : Int) : ℚ) * scale)).centerX =
              r.centerX ∧
          (r.inset (((tm.videoLayerManager.getButtonSize.tdiv 4 : Int) : ℚ) * scale)
            (((tm.videoLayerManager.getButtonSize.tdiv 4 : Int) : ℚ) * scale)).centerY =
              r.centerY) ∧
        (r.width = (tm.videoLayerManager.getButtonSize : ℚ) →
          r.height = (tm.videoLayerManager.getButtonSize : ℚ) →
          ((r.inset (((tm.videoLayerManager.getButtonSize.tdiv 4 : Int) : ℚ) * scale)
              (((tm.videoLayerManager.getButtonSize.tdiv 4 : Int) : ℚ) * scale)).width =
            (tm.videoLayerManager.getButtonSize : ℚ) -
              2 * ((tm.videoLayerManager.getButtonSize.tdiv 4 : Int) : ℚ) * scale ∧
          (r.inset (((tm.videoLayerManager.getButtonSize.tdiv 4 : Int) : ℚ) * scale)
              (((tm.videoLayerManager.getButtonSize.tdiv 4 : Int) : ℚ) * scale)).height =
            (tm.videoLayerManager.getButtonSize : ℚ) -
              2 * ((tm.videoLayerManager.getButtonSize.tdiv 4 : Int) : ℚ) * scale) ∧
          (4 ∣ tm.videoLayerManager.getButtonSize →
            (r.inset (((tm.videoLayerManager.getButtonSize.tdiv 4 : Int) : ℚ) * scale)
                (((tm.videoLayerManager.getButtonSize.tdiv 4 : Int) : ℚ) * scale)).width =
              (tm.videoLayerManager.getButtonSize : ℚ) * (1 - scale / 2) ∧
            (r.inset (((tm.videoLayerManager.getButtonSize.tdiv 4 : Int) : ℚ) * scale)
                (((tm.videoLayerManager.getButtonSize.tdiv 4 : Int) : ℚ) * scale)).height =
              (tm.videoLayerManager.getButtonSize : ℚ) * (1 - scale / 2)))) := by
  refine ⟨fun layerId type => drawIcon_mem_iff tm layer rot layerId type, ?_,
    fun type hq => iconQuad_iff tm layer rot type hq, ?_, ?_⟩
  · intro hp layerId type hmem
    rcases ((drawIcon_mem_iff tm layer rot _ _).mp hmem).2 with ⟨-, h1, -⟩ | ⟨-, h1, -⟩
    · rw [hp] at h1
      exact absurd h1 (by decide)
    · exact h1 hp
  · intro type
    cases type <;> rfl
  · intro r scale
    have h := iconRect_geometry tm r scale
    simp only [iconRect] at h
    exact ⟨⟨h.1, h.2.1⟩, fun hw hh =>
      ⟨⟨h.2.2.1 hw, h.2.2.2.1 hh⟩, fun hd => ⟨(h.2.2.2.2 hd).1 hw, (h.2.2.2.2 hd).2 hh⟩⟩⟩

/-- Witness for C7: with scale 1/2 and the 64 pixel button on the 160 x 90
sample layer the pause icon is drawn, with opacity 1/2, in the 48 x 48 rect
`(56, 21, 104, 69)` around the centre `(80, 45)` of the inner rect
`(48, 13, 112, 77)`. -/
theorem drawGL_icon_overlay_witness :
    iconQuad fadingTiles sampleLayer IconType.PauseIcon ∈
        (drawGL fadingTiles sampleLayer 0).calls ∧
      iconQuad fadingTiles sampleLayer IconType.PauseIcon =
        GLCall.drawLayerQuad (TransformationMatrix.named 0) ⟨56, 21, 104, 69⟩ 5 (1 / 2)
          true none none :=
  ⟨((drawGL_icon_overlay fadingTiles sampleLayer 0).2.2.1 IconType.PauseIcon
      ((drawGL_icon_overlay fadingTiles sampleLayer 0).1 _ _ |>.mpr
        ⟨rfl, Or.inr ⟨rfl, by decide, fun h => absurd h.1 (by decide)⟩⟩)).2.mpr
      (by norm_num [fadingTiles, fadingManager]),
    by
      rw [(drawGL_icon_overlay fadingTiles sampleLayer 0).2.2.2.1 IconType.PauseIcon]
      have hv : videoRect fadingTiles sampleLayer = ⟨20, 0, 140, 90⟩ := by
        norm_num [videoRect, elementRect, calVideoRect, deltaX, deltaY, SkRect.inset,
          SkRect.width, SkRect.height, SkRect.MakeSize, fadingTiles, fadingManager,
          sampleManager, sampleLayer, sampleBase, construct, init]
      have hq : Int.tdiv 64 4 = 16 := by decide
      rw [hv]
      norm_num [innerRect, SkRect.MakeWH, SkRect.contains, SkRect.offset, SkRect.inset,
        SkRect.width, SkRect.height, fadingTiles, fadingManager, sampleManager,
        sampleLayer, sampleBase, construct, init, hq]⟩

/-- C7 as stated fails on the code: with a 66 pixel button and scale 1/2 on
the 160 x 90 sample layer the inner rect is the 66 x 66 square
`(47, 12, 113, 78)`, the integer quotient `66 / 4` is 16, the pause icon is
drawn in `(55, 20, 105, 70)` and has side 50, not `66 * (1 - (1/2) / 2)`,
which is 49.5. -/
theorem icon_side_truncated_at_66 :
    innerRect oddTiles (videoRect oddTiles sampleLayer) = ⟨47, 12, 113, 78⟩ ∧
      (innerRect oddTiles (videoRect oddTiles sampleLayer)).width =
        (oddTiles.videoLayerManager.getButtonSize : ℚ) ∧
      (innerRect oddTiles (videoRect oddTiles sampleLayer)).height =
        (oddTiles.videoLayerManager.getButtonSize : ℚ) ∧
      oddTiles.videoLayerManager.drawIcon sampleLayer.base.uniqueId IconType.PauseIcon =
        1 / 2 ∧
      GLCall.drawLayerQuad (TransformationMatrix.named 0) ⟨55, 20, 105, 70⟩ 5 (1 / 2)
          true none none ∈ (drawGL oddTiles sampleLayer 0).calls ∧
      (⟨55, 20, 105, 70⟩ : SkRect).width = 50 ∧
      (⟨55, 20, 105, 70⟩ : SkRect).width ≠
        (oddTiles.videoLayerManager.getButtonSize : ℚ) * (1 - (1 / 2) / 2) := by
  have hv : videoRect oddTiles sampleLayer = ⟨20, 0, 140, 90⟩ := by
    norm_num [videoRect, elementRect, calVideoRect, deltaX, deltaY, SkRect.inset,
      SkRect.width, SkRect.height, SkRect.MakeSize, oddTiles, oddManager, fadingManager,
      sampleManager, sampleLayer, sampleBase, construct, init]
  have hi : innerRect oddTiles ⟨20, 0, 140, 90⟩ = ⟨47, 12, 113, 78⟩ := by
    norm_num [innerRect, SkRect.MakeWH, SkRect.contains, SkRect.offset,
      SkRect.width, SkRect.height, oddTiles, oddManager, fadingManager, sampleManager]
  have hq : Int.tdiv 66 4 = 16 := by decide
  have hquad : iconQuad oddTiles sampleLayer IconType.PauseIcon =
      GLCall.drawLayerQuad (TransformationMatrix.named 0) ⟨55, 20, 105, 70⟩ 5 (1 / 2)
        true none none := by
    simp only [iconQuad, iconRect, iconTextureId, hv, hi]
    norm_num [SkRect.inset, oddTiles, oddManager, fadingManager, sampleManager,
      sampleLayer, sampleBase, construct, init, hq]
  have hmem : GLCall.drawIcon sampleLayer.base.uniqueId IconType.PauseIcon ∈
      (drawGL oddTiles sampleLayer 0).calls :=
    (drawIcon_mem_iff oddTiles sampleLayer 0 _ _).mpr
      ⟨rfl, Or.inr ⟨rfl, by decide, fun h => absurd h.1 (by decide)⟩⟩
  refine ⟨by rw [hv, hi], ?_, ?_, rfl, ?_, ?_, ?_⟩
  · rw [hv, hi]; norm_num [SkRect.width, oddTiles, oddManager]
  · rw [hv, hi]; norm_num [SkRect.height, oddTiles, oddManager]
  · rw [← hquad]
    exact (iconQuad_iff oddTiles sampleLayer 0 IconType.PauseIcon hmem).2.mpr
      (by norm_num [oddTiles, oddManager, fadingManager])
  · norm_num [SkRect.width]
  · norm_num [SkRect.width, oddTiles, oddManager]

/-! ## The inner rect -/

/-- Where the inner rect ends up: centred on the video rect when the
button-sized rect does not contain the video rect; when it does, the inner
rect is the video rect moved by the offset computed for a button-sized rect,
and is centred on the video rect only if that offset happens to be zero. -/
theorem innerRect_centre (tm : TilesManager) (v : SkRect) :
    ((SkRect.MakeWH (tm.videoLayerManager.getButtonSize : ℚ)
          (tm.videoLayerManager.getButtonSize : ℚ)).contains v = false →
        (innerRect tm v).centerX = v.centerX ∧ (innerRect tm v).centerY = v.centerY) ∧
      ((SkRect.MakeWH (tm.videoLayerManager.getButtonSize : ℚ)
          (tm.videoLayerManager.getButtonSize : ℚ)).contains v = true →
        ((innerRect tm v).centerX = v.centerX ↔
          v.fLeft + v.fRight = (tm.videoLayerManager.getButtonSize : ℚ)) ∧
        ((innerRect tm v).centerY = v.centerY ↔
          v.fTop + v.fBottom = (tm.videoLayerManager.getButtonSize : ℚ))) := by
  constructor
  · intro h
    simp only [innerRect, h, Bool.false_eq_true, if_false]
    simp only [SkRect.MakeWH, SkRect.offset, SkRect.centerX, SkRect.centerY,
      SkRect.width, SkRect.height]
    constructor <;> ring
  · intro h
    simp only [innerRect, h, if_true]
    simp only [SkRect.offset, SkRect.centerX, SkRect.centerY, SkRect.width, SkRect.height]
    constructor <;> constructor <;> intro h' <;> linarith

/-- C5 fails on the code: for a 32 x 32 element with square video and a 64
pixel button the video rect is `(0, 0, 32, 32)` with centre `(16, 16)`, the
button-sized rect contains it, and the inner rect `drawGL` passes to the
poster draw is `(-16, -16, 16, 16)` with centre `(0, 0)`. -/
theorem innerRect_off_centre_in_thumbnail :
    videoRect squareTiles thumbnailLayer = ⟨0, 0, 32, 32⟩ ∧
      (SkRect.MakeWH 64 64).contains (videoRect squareTiles thumbnailLayer) = true ∧
      innerRect squareTiles (videoRect squareTiles thumbnailLayer) = ⟨-16, -16, 16, 16⟩ ∧
      (videoRect squareTiles thumbnailLayer).centerX = 16 ∧
      (videoRect squareTiles thumbnailLayer).centerY = 16 ∧
      (innerRect squareTiles (videoRect squareTiles thumbnailLayer)).centerX = 0 ∧
      (innerRect squareTiles (videoRect squareTiles thumbnailLayer)).centerY = 0 ∧
      (drawGL squareTiles thumbnailLayer 0).calls =
        [GLCall.initGLResourcesIfNeeded,
         GLCall.drawLayerQuad (TransformationMatrix.named 0) ⟨0, 0, 32, 32⟩ 0 1 true
           (some GLenum.GL_TEXTURE_2D) (some ⟨128, 128, 128, 255⟩),
         GLCall.drawLayerQuad (TransformationMatrix.named 0) ⟨-16, -16, 16, 16⟩ 3 1 true
           none none,
         GLCall.drawIcon 7 IconType.PauseIcon,
         GLCall.drawChildrenGL] := by
  have hv : videoRect squareTiles thumbnailLayer = ⟨0, 0, 32, 32⟩ := by
    norm_num [videoRect, elementRect, calVideoRect, deltaX, deltaY, SkRect.inset,
      SkRect.width, SkRect.height, SkRect.MakeSize, squareTiles, squareManager,
      sampleManager, thumbnailLayer, construct, init]
  have hi : innerRect squareTiles ⟨0, 0, 32, 32⟩ = ⟨-16, -16, 16, 16⟩ := by
    norm_num [innerRect, SkRect.MakeWH, SkRect.contains, SkRect.offset,
      SkRect.width, SkRect.height, squareTiles, squareManager, sampleManager]
  refine ⟨hv, ?_, ?_, ?_, ?_, ?_, ?_, ?_⟩
  · rw [hv]; norm_num [SkRect.MakeWH, SkRect.contains]
  · rw [hv, hi]
  · rw [hv]; norm_num [SkRect.centerX]
  · rw [hv]; norm_num [SkRect.centerY]
  · rw [hv, hi]; norm_num [SkRect.centerX]
  · rw [hv, hi]; norm_num [SkRect.centerY]
  · have hp : thumbnailLayer.m_playerState ≠ PlayerState.PREPARING := by decide
    have hl : ¬ (thumbnailLayer.m_playerState = PlayerState.PLAYING ∧
        thumbnailLayer.m_surfaceTexture ≠ none) := by decide
    have hc : ¬ (squareTiles.videoLayerManager.getTextureId thumbnailLayer.base.uniqueId ≠ 0 ∧
        squareTiles.videoLayerManager.getMatrix thumbnailLayer.base.uniqueId ≠ none) :=
      fun h => h.1 rfl
    rw [drawGL_calls_poster squareTiles thumbnailLayer 0 hp hl hc]
    simp only [prologue, posterBackground, posterQuad, drawIconOverlay, hv, hi]
    norm_num [elementRect, SkRect.MakeSize, squareTiles, squareManager, sampleManager,
      thumbnailLayer, construct, init]

/-! ## Construction and the player state -/

/-- The layer `drawGL` hands back is the layer it was called on. -/
theorem drawGL_layer (tm : TilesManager) (layer : VideoLayerAndroid) (rot : ℚ) :
    (drawGL tm layer rot).layer = layer := by
  simp only [drawGL]
  split_ifs <;> rfl

/-- A member function other than `setSurfaceTexture` leaves the layer as it
is. -/
theorem step_layer_of_not_set (tm : TilesManager) (w : World) (op : Op)
    (h : ∀ t n p, op ≠ Op.setSurfaceTexture t n p) : (step tm w op).layer = w.layer := by
  cases op with
  | setSurfaceTexture t n p => exact absurd rfl (h t n p)
  | showPreparingAnimation rect innerRect => rfl
  | calVideoRect rect => rfl
  | drawGL => exact drawGL_layer tm w.layer w.m_rotateDegree

/-- A sequence of member functions without `setSurfaceTexture` leaves the
layer as it is. -/
theorem run_layer_of_not_set (tm : TilesManager) (ops : List Op) (w : World)
    (h : ∀ op ∈ ops, ∀ t n p, op ≠ Op.setSurfaceTexture t n p) :
    (run tm w ops).layer = w.layer := by
  induction ops generalizing w with
  | nil => rfl
  | cons op rest ih =>
    have h1 := step_layer_of_not_set tm w op (h op (List.mem_cons_self _ _))
    have h2 := ih (step tm w op) (fun o ho => h o (List.mem_cons_of_mem _ ho))
    simp only [run, List.foldl_cons] at h2 ⊢
    rw [h2, h1]

/-- C8: a default-constructed layer and a layer copy-constructed from any
layer have player state `INITIALIZED` and no surface texture; `drawGL` on
such a layer, after any member-function calls other than `setSurfaceTexture`,
shows neither the spinner nor the live frame and makes no `updateTexImage`
call; a member function that changes the player state or the surface texture
is `setSurfaceTexture`, which sets both to its arguments; `drawGL` leaves
both unchanged. -/
theorem new_layer_is_initialized (tm : TilesManager) :
    (∀ base indeterminate,
        (construct base indeterminate).m_playerState = PlayerState.INITIALIZED ∧
        (construct base indeterminate).m_surfaceTexture = none) ∧
      (∀ copyBase layer indeterminate,
        (copyConstruct copyBase layer indeterminate).m_playerState =
          PlayerState.INITIALIZED ∧
        (copyConstruct copyBase layer indeterminate).m_surfaceTexture = none) ∧
      (∀ (w : World) (ops : List Op),
        ((∃ base indeterminate, w.layer = construct base indeterminate) ∨
          (∃ copyBase layer indeterminate,
            w.layer = copyConstruct copyBase layer indeterminate)) →
        (∀ op ∈ ops, ∀ t n p, op ≠ Op.setSurfaceTexture t n p) →
        ¬ spinnerDrawn tm (run tm w ops).layer (run tm w ops).m_rotateDegree
            (drawGL tm (run tm w ops).layer (run tm w ops).m_rotateDegree).calls ∧
          ¬ liveFrameDrawn tm (run tm w ops).layer
            (drawGL tm (run tm w ops).layer (run tm w ops).m_rotateDegree).calls ∧
          ∀ texture, GLCall.updateTexImage texture ∉
            (drawGL tm (run tm w ops).layer (run tm w ops).m_rotateDegree).calls) ∧
      (∀ (w : World) (op : Op),
        ((step tm w op).layer.m_playerState ≠ w.layer.m_playerState ∨
          (step tm w op).layer.m_surfaceTexture ≠ w.layer.m_surfaceTexture) →
        ∃ t n p, op = Op.setSurfaceTexture t n p) ∧
      (∀ (w : World) t n p,
        (step tm w (Op.setSurfaceTexture t n p)).layer.m_playerState = p ∧
        (step tm w (Op.setSurfaceTexture t n p)).layer.m_surfaceTexture = t) ∧
      (∀ layer rot,
        (drawGL tm layer rot).layer.m_playerState = layer.m_playerState ∧
        (drawGL tm layer rot).layer.m_surfaceTexture = layer.m_surfaceTexture) := by
  refine ⟨fun _ _ => ⟨rfl, rfl⟩, fun _ _ _ => ⟨rfl, rfl⟩, ?_, ?_, fun _ _ _ _ => ⟨rfl, rfl⟩,
    fun layer rot => by rw [drawGL_layer]; exact ⟨rfl, rfl⟩⟩
  · intro w ops hnew hops
    have hlayer := run_layer_of_not_set tm ops w hops
    have hstate : (run tm w ops).layer.m_playerState = PlayerState.INITIALIZED := by
      rw [hlayer]
      rcases hnew with ⟨b, i, h⟩ | ⟨c, l, i, h⟩ <;> rw [h] <;> rfl
    refine ⟨fun h => ?_, fun h => ?_, fun texture h => ?_⟩
    · have := (spinnerDrawn_iff tm _ _).mp h
      rw [hstate] at this
      exact absurd this (by decide)
    · have := ((liveFrameDrawn_iff tm _ _).mp h).1
      rw [hstate] at this
      exact absurd this (by decide)
    · have := ((updateTexImage_mem_iff tm _ _).mp ⟨texture, h⟩).1
      rw [hstate] at this
      exact absurd this (by decide)
  · intro w op hchange
    by_contra hne
    have hkeep := step_layer_of_not_set tm w op
      (fun t n p h => hne ⟨t, n, p, h⟩)
    rw [hkeep] at hchange
    exact hchange.elim (fun h => h rfl) (fun h => h rfl)

/-- Sample for C8: after two `drawGL` calls and a `calVideoRect` call the
fresh sample layer still shows neither spinner nor live frame in `drawGL`. -/
theorem new_layer_is_initialized_witness :
    ¬ spinnerDrawn sampleTiles
        (run sampleTiles ⟨sampleLayer, 0, []⟩
          [Op.drawGL, Op.calVideoRect ⟨0, 0, 160, 90⟩, Op.drawGL]).layer
        (run sampleTiles ⟨sampleLayer, 0, []⟩
          [Op.drawGL, Op.calVideoRect ⟨0, 0, 160, 90⟩, Op.drawGL]).m_rotateDegree
        (drawGL sampleTiles
          (run sampleTiles ⟨sampleLayer, 0, []⟩
            [Op.drawGL, Op.calVideoRect ⟨0, 0, 160, 90⟩, Op.drawGL]).layer
          (run sampleTiles ⟨sampleLayer, 0, []⟩
            [Op.drawGL, Op.calVideoRect ⟨0, 0, 160, 90⟩, Op.drawGL]).m_rotateDegree).calls ∧
      ¬ liveFrameDrawn sampleTiles
        (run sampleTiles ⟨sampleLayer, 0, []⟩
          [Op.drawGL, Op.calVideoRect ⟨0, 0, 160, 90⟩, Op.drawGL]).layer
        (drawGL sampleTiles
          (run sampleTiles ⟨sampleLayer, 0, []⟩
            [Op.drawGL, Op.calVideoRect ⟨0, 0, 160, 90⟩, Op.drawGL]).layer
          (run sampleTiles ⟨sampleLayer, 0, []⟩
            [Op.drawGL, Op.calVideoRect ⟨0, 0, 160, 90⟩, Op.drawGL]).m_rotateDegree).calls :=
  ⟨((new_layer_is_initialized sampleTiles).2.2.1 ⟨sampleLayer, 0, []⟩
      [Op.drawGL, Op.calVideoRect ⟨0, 0, 160, 90⟩, Op.drawGL]
      (Or.inl ⟨sampleBase, PlayerState.other 0, rfl⟩)
      (by
        intro op hop t n p h
        subst h
        simp at hop)).1,
    ((new_layer_is_initialized sampleTiles).2.2.1 ⟨sampleLayer, 0, []⟩
      [Op.drawGL, Op.calVideoRect ⟨0, 0, 160, 90⟩, Op.drawGL]
      (Or.inl ⟨sampleBase, PlayerState.other 0, rfl⟩)
      (by
        intro op hop t n p h
        subst h
        simp at hop)).2.1⟩

end WebCore
